import Mathlib

/-!
Verification of the booking-form logic in `src/components/BookingForm.tsx`.

The component holds a single mutable draft (`BookingFormData`) and exposes
field-update handlers, a pricer, a submission gate and a file loader.  Each
handler is embedded as a pure Lean function: the previous draft is passed in
explicitly and the next draft is returned; user-visible effects (alerts, the
`onSubmit` callback, starting a file decode) are returned as values of small
inductive types.  The bus-service table `BUS_SERVICES` lives in a constants
module consumed read-only, so it is a parameter `String → Option Service`
here; `none` plays the role of a missing key (JavaScript `undefined`, falsy).
-/

/-- One entry of the `BUS_SERVICES` table: departure time and per-seat price. -/
structure Service where
  time : String
  price : Int
deriving Repr, DecidableEq

/-- The booking draft held in the component's `formData` state.  The source
fields `from` and `to` are rendered `fromCity` / `toCity` because `from` is a
Lean keyword.  Seat counts are JavaScript numbers used as integers. -/
structure BookingFormData where
  name : String
  phone : String
  fromCity : String
  toCity : String
  date : String
  time : String
  bus : String
  maleSeats : Int
  femaleSeats : Int
  paymentSlip : String
deriving Repr, DecidableEq

/-- `handleBusChange`: stores the chosen bus name and resynchronizes `time`
from the service table, clearing it when the name has no entry
(`service ? service.time : ''`). -/
def handleBusChange (services : String → Option Service) (busName : String)
    (prev : BookingFormData) : BookingFormData :=
  { prev with
    bus := busName
    time := match services busName with
            | some service => service.time
            | none => "" }

/-- `calculateTotal`: looks the selected bus up in the service table; a
missing entry yields 0 (`if (!service) return 0`), otherwise
`service.price * (maleSeats + femaleSeats)`. -/
def calculateTotal (services : String → Option Service)
    (formData : BookingFormData) : Int :=
  match services formData.bus with
  | none => 0
  | some service => service.price * (formData.maleSeats + formData.femaleSeats)

/-- The seat kind argument of `updateSeats` (`'male' | 'female'`). -/
inductive SeatType where
  | male
  | female
deriving Repr, DecidableEq

/-- The seat count of the given kind, used to state properties of
`updateSeats`. -/
def seatCount (type : SeatType) (formData : BookingFormData) : Int :=
  match type with
  | .male => formData.maleSeats
  | .female => formData.femaleSeats

/-- `updateSeats`: clamps `current + delta` to `[0, 10]`
(`Math.max(0, Math.min(10, current + delta))`) and replaces only the chosen
kind's field. -/
def updateSeats (type : SeatType) (delta : Int)
    (prev : BookingFormData) : BookingFormData :=
  let current := match type with
    | .male => prev.maleSeats
    | .female => prev.femaleSeats
  let newVal := max 0 (min 10 (current + delta))
  match type with
  | .male => { prev with maleSeats := newVal }
  | .female => { prev with femaleSeats := newVal }

/-- A selected file as far as `handleFileChange` inspects it: its byte size. -/
structure JsFile where
  size : Nat
deriving Repr, DecidableEq

/-- The user-visible effect of one `handleFileChange` invocation: nothing
(no file selected), the too-large alert, or starting the asynchronous
`FileReader` decode of the accepted file. -/
inductive FileEffect where
  | noAction
  | notifyTooLarge
  | beginDecode (file : JsFile)
deriving Repr, DecidableEq

/-- `handleFileChange`: reads `e.target.files?.[0]`; does nothing when no
file is selected; alerts and aborts when `file.size > 3 * 1024 * 1024`;
otherwise starts the decode.  The handler itself never writes the draft
(the write happens later in `reader.onloadend`), so the returned draft is
the prior one in every branch. -/
def handleFileChange (files : List JsFile)
    (prev : BookingFormData) : BookingFormData × FileEffect :=
  match files with
  | [] => (prev, .noAction)
  | file :: _ =>
    if file.size > 3 * 1024 * 1024 then (prev, .notifyTooLarge)
    else (prev, .beginDecode file)

/-- The `reader.onloadend` completion: stores the decoded data URL into
`paymentSlip`. -/
def readerOnLoadEnd (result : String) (prev : BookingFormData) : BookingFormData :=
  { prev with paymentSlip := result }

/-- `removeFile`: clears `paymentSlip` (the file-input reset touches only the
DOM control, not the draft). -/
def removeFile (prev : BookingFormData) : BookingFormData :=
  { prev with paymentSlip := "" }

/-- The phone field's `onChange` transform:
`e.target.value.replace(/\D/g, '').slice(0, 10)` — drop every non-digit
character, keep the first 10, store the result. -/
def phoneOnChange (value : String) (prev : BookingFormData) : BookingFormData :=
  { prev with phone := ((value.toList.filter Char.isDigit).take 10).asString }

/-- The outcome of one `handleSubmit` invocation: the seat-selection alert,
the invalid-phone alert, or the `onSubmit` callback invoked with the given
draft. -/
inductive SubmitResult where
  | seatAlert
  | phoneAlert
  | submitted (data : BookingFormData)
deriving Repr, DecidableEq

/-- `handleSubmit`: rejects with the seat alert when both seat counts are 0,
else with the phone alert when `phone.length < 9`, else calls `onSubmit`
with the current draft.  No branch writes the draft, so the returned draft
is the prior one in every branch. -/
def handleSubmit (formData : BookingFormData) : BookingFormData × SubmitResult :=
  if formData.maleSeats = 0 ∧ formData.femaleSeats = 0 then
    (formData, .seatAlert)
  else if formData.phone.length < 9 then
    (formData, .phoneAlert)
  else
    (formData, .submitted formData)

/-- A concrete draft used by the witness theorems: a filled form with one
male seat and a 10-digit phone number. -/
def sampleDraft : BookingFormData :=
  { name := "Amal Perera"
    phone := "0771234567"
    fromCity := "Colombo"
    toCity := "Jaffna"
    date := "2026-10-12"
    time := "08:00 PM"
    bus := "Lagan Express"
    maleSeats := 1
    femaleSeats := 0
    paymentSlip := "" }

/-- A concrete one-entry service table used by the witness theorems. -/
def sampleServices : String → Option Service := fun busName =>
  if busName = "Lagan Express" then some { time := "08:00 PM", price := 3500 }
  else none

/-- C1: `handleSubmit` never modifies the draft; it invokes `onSubmit` iff
not both seat counts are 0 and the phone string has length at least 9; when
it does, the callback receives exactly the current draft; when it does not,
the first violated check fires, seat check before phone check. -/
theorem handleSubmit_spec (fd : BookingFormData) :
    (handleSubmit fd).1 = fd ∧
    ((handleSubmit fd).2 = .submitted fd ↔
      ¬(fd.maleSeats = 0 ∧ fd.femaleSeats = 0) ∧ 9 ≤ fd.phone.length) ∧
    (∀ d, (handleSubmit fd).2 = .submitted d → d = fd) ∧
    (fd.maleSeats = 0 ∧ fd.femaleSeats = 0 → (handleSubmit fd).2 = .seatAlert) ∧
    (¬(fd.maleSeats = 0 ∧ fd.femaleSeats = 0) → fd.phone.length < 9 →
      (handleSubmit fd).2 = .phoneAlert) := by
  unfold handleSubmit
  by_cases h1 : fd.maleSeats = 0 ∧ fd.femaleSeats = 0
  · simp [h1]
  · by_cases h2 : fd.phone.length < 9
    · simp [h1, h2]
    · simp [h1, h2]
      omega

/-- Witness for C1: the sample draft (one male seat, 10-digit phone) is
submitted as-is. -/
theorem handleSubmit_spec_witness :
    (handleSubmit sampleDraft).2 = .submitted sampleDraft :=
  ((handleSubmit_spec sampleDraft).2.1).mpr (by decide)

/-- C2: the computed total is 0 when the selected bus name is not a key of
the service table, and equals the matched service's price times
`maleSeats + femaleSeats` when it is. -/
theorem calculateTotal_spec (services : String → Option Service)
    (fd : BookingFormData) :
    (services fd.bus = none → calculateTotal services fd = 0) ∧
    (∀ s, services fd.bus = some s →
      calculateTotal services fd = s.price * (fd.maleSeats + fd.femaleSeats)) := by
  constructor
  · intro h; simp [calculateTotal, h]
  · intro s h; simp [calculateTotal, h]

/-- Witness for C2: the sample draft's bus is a key of the sample table, so
the total is its price times the seat sum. -/
theorem calculateTotal_spec_witness :
    calculateTotal sampleServices sampleDraft =
      3500 * (sampleDraft.maleSeats + sampleDraft.femaleSeats) :=
  (calculateTotal_spec sampleServices sampleDraft).2
    { time := "08:00 PM", price := 3500 } (by decide)

/-- C3: `updateSeats` sets the chosen kind's count to
`max 0 (min 10 (current + delta))` and changes no other field; the count
stays in `[0, 10]`, applying -1 at 0 leaves 0, and applying +1 at 10
leaves 10. -/
theorem updateSeats_spec (type : SeatType) (delta : Int)
    (prev : BookingFormData) :
    seatCount type (updateSeats type delta prev)
      = max 0 (min 10 (seatCount type prev + delta)) ∧
    (∀ other, other ≠ type →
      seatCount other (updateSeats type delta prev) = seatCount other prev) ∧
    (updateSeats type delta prev).name = prev.name ∧
    (updateSeats type delta prev).phone = prev.phone ∧
    (updateSeats type delta prev).fromCity = prev.fromCity ∧
    (updateSeats type delta prev).toCity = prev.toCity ∧
    (updateSeats type delta prev).date = prev.date ∧
    (updateSeats type delta prev).time = prev.time ∧
    (updateSeats type delta prev).bus = prev.bus ∧
    (updateSeats type delta prev).paymentSlip = prev.paymentSlip ∧
    0 ≤ seatCount type (updateSeats type delta prev) ∧
    seatCount type (updateSeats type delta prev) ≤ 10 ∧
    (seatCount type prev = 0 → seatCount type (updateSeats type (-1) prev) = 0) ∧
    (seatCount type prev = 10 → seatCount type (updateSeats type 1 prev) = 10) := by
  cases type <;>
    refine ⟨?_, ?_, rfl, rfl, rfl, rfl, rfl, rfl, rfl, rfl, ?_, ?_, ?_, ?_⟩ <;>
    first
      | (intro other hother; cases other <;> simp_all [seatCount, updateSeats])
      | (intro h
         simp only [seatCount] at h
         simp only [seatCount, updateSeats, h]
         decide)
      | (simp only [seatCount, updateSeats]; omega)
      | simp only [seatCount, updateSeats]

/-- Witness for C3: decrementing male seats from 0 with delta -1 leaves
every field of the sample draft unchanged (the count stays 0). -/
theorem updateSeats_spec_witness :
    seatCount .female (updateSeats .female (-1) sampleDraft) = 0 :=
  (updateSeats_spec .female 0 sampleDraft).2.2.2.2.2.2.2.2.2.2.2.2.1 (by decide)

/-- C4: the phone onChange stores, for every input string, the input with
every non-digit character removed and then truncated to the first 10
characters — never rejecting the input — and changes no other field;
`"07abc71234567"` is stored as `"0771234567"`. -/
theorem phoneOnChange_spec (value : String) (prev : BookingFormData) :
    (phoneOnChange value prev).phone
      = ((value.toList.filter Char.isDigit).take 10).asString ∧
    (phoneOnChange value prev).phone.length ≤ 10 ∧
    (∀ c ∈ (phoneOnChange value prev).phone.toList, c.isDigit) ∧
    (phoneOnChange "07abc71234567" prev).phone = "0771234567" ∧
    (phoneOnChange value prev).name = prev.name ∧
    (phoneOnChange value prev).fromCity = prev.fromCity ∧
    (phoneOnChange value prev).toCity = prev.toCity ∧
    (phoneOnChange value prev).date = prev.date ∧
    (phoneOnChange value prev).time = prev.time ∧
    (phoneOnChange value prev).bus = prev.bus ∧
    (phoneOnChange value prev).maleSeats = prev.maleSeats ∧
    (phoneOnChange value prev).femaleSeats = prev.femaleSeats ∧
    (phoneOnChange value prev).paymentSlip = prev.paymentSlip := by
  refine ⟨rfl, ?_, ?_, rfl, rfl, rfl, rfl, rfl, rfl, rfl, rfl, rfl, rfl⟩
  · simp [phoneOnChange, String.length, List.asString, List.length_take]
  · intro c hc
    have hc2 : c ∈ (value.toList.filter Char.isDigit).take 10 := by
      simpa [phoneOnChange, String.toList, List.asString] using hc
    have hc3 : c ∈ value.toList.filter Char.isDigit :=
      List.take_subset _ _ hc2
    exact (List.mem_filter.mp hc3).2

/-- Witness for C4: the spec's concrete example, plus the digit-only
guarantee discharged at the first stored character. -/
theorem phoneOnChange_spec_witness :
    (phoneOnChange "07abc71234567" sampleDraft).phone = "0771234567" ∧
    Char.isDigit '0' = true :=
  ⟨(phoneOnChange_spec "07abc71234567" sampleDraft).2.2.2.1,
   (phoneOnChange_spec "07abc71234567" sampleDraft).2.2.1 '0' (by decide)⟩

/-- C5: `handleBusChange` sets `bus` to the given name and `time` to the
service table's time for that name when the name is a key, and to the empty
string when it is not. -/
theorem handleBusChange_spec (services : String → Option Service)
    (busName : String) (prev : BookingFormData) :
    (handleBusChange services busName prev).bus = busName ∧
    (∀ s, services busName = some s →
      (handleBusChange services busName prev).time = s.time) ∧
    (services busName = none →
      (handleBusChange services busName prev).time = "") := by
  refine ⟨rfl, ?_, ?_⟩
  · intro s h; simp [handleBusChange, h]
  · intro h; simp [handleBusChange, h]

/-- Witness for C5: selecting the sample table's bus stores its time. -/
theorem handleBusChange_spec_witness :
    (handleBusChange sampleServices "Lagan Express" sampleDraft).time
      = "08:00 PM" :=
  (handleBusChange_spec sampleServices "Lagan Express" sampleDraft).2.1
    { time := "08:00 PM", price := 3500 } (by decide)

/-- C6: when the selected file's size exceeds 3 MB the operation aborts
before the decode: the entire draft is returned unchanged (every field keeps
its prior value) and the too-large alert is the only effect. -/
theorem handleFileChange_tooLarge (file : JsFile) (rest : List JsFile)
    (prev : BookingFormData) (h : 3 * 1024 * 1024 < file.size) :
    handleFileChange (file :: rest) prev = (prev, .notifyTooLarge) := by
  simp [handleFileChange, h]

/-- Witness for C6: a 4 MB file is rejected and the sample draft is
untouched. -/
theorem handleFileChange_tooLarge_witness :
    handleFileChange [{ size := 4194304 }] sampleDraft
      = (sampleDraft, .notifyTooLarge) :=
  handleFileChange_tooLarge { size := 4194304 } [] sampleDraft (by norm_num)

/-- C7: `removeFile` sets `paymentSlip` to the empty string and leaves every
other field of the draft unchanged. -/
theorem removeFile_spec (prev : BookingFormData) :
    (removeFile prev).paymentSlip = "" ∧
    (removeFile prev).name = prev.name ∧
    (removeFile prev).phone = prev.phone ∧
    (removeFile prev).fromCity = prev.fromCity ∧
    (removeFile prev).toCity = prev.toCity ∧
    (removeFile prev).date = prev.date ∧
    (removeFile prev).time = prev.time ∧
    (removeFile prev).bus = prev.bus ∧
    (removeFile prev).maleSeats = prev.maleSeats ∧
    (removeFile prev).femaleSeats = prev.femaleSeats :=
  ⟨rfl, rfl, rfl, rfl, rfl, rfl, rfl, rfl, rfl, rfl⟩

/-- C8: a file-change event with an empty file list does nothing: the draft
is returned unchanged and neither an alert nor a decode is produced. -/
theorem handleFileChange_noFile (prev : BookingFormData) :
    handleFileChange [] prev = (prev, .noAction) :=
  rfl

/-- C9: the size cap is a strict comparison against 3 × 1024 × 1024 =
3145728 bytes: the rejection fires iff the size is strictly greater, and a
file of exactly 3145728 bytes proceeds to the decode. -/
theorem handleFileChange_strictCap (file : JsFile) (rest : List JsFile)
    (prev : BookingFormData) :
    ((handleFileChange (file :: rest) prev).2 = .notifyTooLarge ↔
      3145728 < file.size) ∧
    (¬ 3145728 < file.size →
      handleFileChange (file :: rest) prev = (prev, .beginDecode file)) ∧
    (file.size = 3145728 →
      handleFileChange (file :: rest) prev = (prev, .beginDecode file)) := by
  refine ⟨?_, ?_, ?_⟩
  · by_cases h : 3145728 < file.size <;> simp [handleFileChange, h]
  · intro h; simp [handleFileChange, h]
  · intro h; simp [handleFileChange, h]

/-- Witness for C9: a file of exactly 3145728 bytes is not rejected and
starts the decode. -/
theorem handleFileChange_strictCap_witness :
    handleFileChange [{ size := 3145728 }] sampleDraft
      = (sampleDraft, .beginDecode { size := 3145728 }) :=
  (handleFileChange_strictCap { size := 3145728 } [] sampleDraft).2.2 rfl

/-- C10: `handleBusChange` changes only the `bus` and `time` fields; name,
phone, from, to, date, seat counts and paymentSlip are unchanged. -/
theorem handleBusChange_frame (services : String → Option Service)
    (busName : String) (prev : BookingFormData) :
    (handleBusChange services busName prev).name = prev.name ∧
    (handleBusChange services busName prev).phone = prev.phone ∧
    (handleBusChange services busName prev).fromCity = prev.fromCity ∧
    (handleBusChange services busName prev).toCity = prev.toCity ∧
    (handleBusChange services busName prev).date = prev.date ∧
    (handleBusChange services busName prev).maleSeats = prev.maleSeats ∧
    (handleBusChange services busName prev).femaleSeats = prev.femaleSeats ∧
    (handleBusChange services busName prev).paymentSlip = prev.paymentSlip :=
  ⟨rfl, rfl, rfl, rfl, rfl, rfl, rfl, rfl⟩
